import Mathlib

/-!
Verification of the durable message-queue core of the openclaw-lark-channel
plugin.  The definitions below are a shallow embedding of `src/queue.ts`
(the `MessageQueue` class backed by SQLite), of the outbound send loop
`sendToLarkWithRetry` from the compiled channel module
(`dist/src/channel.js`, the shipped artifact, which contains the
non-retryable error-code short-circuit), and of the message-type
classifier `selectMessageType` from `card-builder.ts`.

Modelling conventions:
* SQLite tables become Lean lists of row structures; the AUTOINCREMENT
  primary-key counter is carried explicitly in the store.
* `Date.now()` timestamps are passed in explicitly as `Int` values
  (JavaScript subtraction such as `now - DEDUP_WINDOW_MS` may go
  negative, so `Int` rather than `Nat` keeps the arithmetic faithful).
* The md5 `hashContent` helper is kept abstract: every operation that
  hashes takes the hash function as a parameter, since the code relies
  only on it being a deterministic function of the content.
* `retries` counters are `Nat` (they start at 0 and only increment).
-/

namespace LarkChannel

-- ── Config constants (src/queue.ts) ─────────────────────────────

def MAX_RETRIES : Nat := 120

def RETRY_BACKOFF_BASE_MS : Int := 1000

def RETRY_BACKOFF_MAX_MS : Int := 120 * 60 * 1000

def MESSAGE_TTL_MS : Int := 30 * 24 * 60 * 60 * 1000

def DEDUP_WINDOW_MS : Int := 10 * 60 * 1000

-- ── Retry policy helpers (src/queue.ts, calculateBackoff etc.) ──

/-- Function `calculateBackoff` from `src/queue.ts`:
`RETRY_BACKOFF_BASE_MS * Math.pow(2, Math.min(retries, 17))` capped at
`RETRY_BACKOFF_MAX_MS`. -/
def calculateBackoff (retries : Nat) : Int :=
  min (RETRY_BACKOFF_BASE_MS * 2 ^ (min retries 17)) RETRY_BACKOFF_MAX_MS

/-- Function `hasExceededMaxRetries` from `src/queue.ts`: `retries >= MAX_RETRIES`. -/
def hasExceededMaxRetries (retries : Nat) : Bool :=
  decide (MAX_RETRIES ≤ retries)

-- ── Row and store data model (src/types.ts and the SQL schema) ──

inductive Status where
  | pending
  | processing
  | completed
  | failed_permanent
deriving DecidableEq, Repr

/-- A row of the `inbound_queue` table. -/
structure InboundRow where
  id : Nat
  message_id : String
  chat_id : String
  session_key : String
  message_text : String
  attachments_json : Option String
  status : Status
  retries : Nat
  next_retry_at : Option Int
  created_at : Int
  updated_at : Int
  completed_at : Option Int
  response_text : Option String
  last_error : Option String
deriving DecidableEq, Repr

/-- A row of the `outbound_queue` table. -/
structure OutboundRow where
  id : Nat
  queue_type : String
  run_id : String
  session_key : String
  chat_id : String
  content : String
  content_hash : String
  status : Status
  retries : Nat
  next_retry_at : Option Int
  created_at : Int
  updated_at : Int
  completed_at : Option Int
  lark_message_id : Option String
  last_error : Option String
deriving DecidableEq, Repr

/-- A row of the `sent_messages` dedup ledger (surrogate id omitted:
no query reads it). -/
structure SentRow where
  content_hash : String
  chat_id : String
  lark_message_id : Option String
  created_at : Int
deriving DecidableEq, Repr

/-- The SQLite database state of one `MessageQueue`. -/
structure Store where
  outbound : List OutboundRow
  inbound : List InboundRow
  sent : List SentRow
  nextOutboundId : Nat
  nextInboundId : Nat
deriving DecidableEq, Repr

def emptyStore : Store :=
  { outbound := [], inbound := [], sent := [], nextOutboundId := 1, nextInboundId := 1 }

/-- The `EnqueueResult` interface from `src/types.ts` (`existing` holds
the status string of the pre-existing inbound row). -/
structure EnqueueResult where
  enqueued : Bool
  reason : Option String := none
  id : Option Nat := none
  existing : Option Status := none
deriving DecidableEq, Repr

-- ── Row lookup / update helpers (the `WHERE id = ?` clauses) ────

def byOutboundId (id : Nat) : OutboundRow → Bool := fun r => decide (r.id = id)

def byInboundId (id : Nat) : InboundRow → Bool := fun r => decide (r.id = id)

/-- Statement `UPDATE outbound_queue SET ... WHERE id = ?`: apply `f` to every row
whose primary key is `id` (unique in practice). -/
def updateOutboundRows (id : Nat) (f : OutboundRow → OutboundRow)
    (l : List OutboundRow) : List OutboundRow :=
  l.map fun r => if r.id = id then f r else r

def updateInboundRows (id : Nat) (f : InboundRow → InboundRow)
    (l : List InboundRow) : List InboundRow :=
  l.map fun r => if r.id = id then f r else r

-- ── Outbound queue operations (src/queue.ts) ────────────────────

/-- The `stmtCheckOutboundDupe` predicate:
`content_hash = ? AND chat_id = ? AND created_at > ? AND status IN
('pending','processing')`. -/
def outboundDupe (h c : String) (cutoff : Int) (r : OutboundRow) : Bool :=
  decide (r.content_hash = h) && decide (r.chat_id = c) &&
    decide (cutoff < r.created_at) &&
    (decide (r.status = Status.pending) || decide (r.status = Status.processing))

/-- The `stmtCheckSentDupe` predicate:
`content_hash = ? AND chat_id = ? AND created_at > ?`. -/
def sentDupe (h c : String) (cutoff : Int) (r : SentRow) : Bool :=
  decide (r.content_hash = h) && decide (r.chat_id = c) && decide (cutoff < r.created_at)

/-- The row `stmtEnqueueOutbound` inserts: a fresh `pending` row with
`created_at = updated_at = next_retry_at = now`. -/
def mkOutboundRow (rowId : Nat) (now : Int) (queueType runId sessionKey chatId content h : String) :
    OutboundRow :=
  { id := rowId, queue_type := queueType, run_id := runId,
    session_key := sessionKey, chat_id := chatId, content := content,
    content_hash := h, status := Status.pending, retries := 0,
    next_retry_at := some now, created_at := now, updated_at := now,
    completed_at := none, lark_message_id := none, last_error := none }

/-- The `INSERT` effect shared by the enqueue statements: append the row
and advance the AUTOINCREMENT counter. -/
def insertOutboundRow (s : Store) (row : OutboundRow) : Store :=
  { s with outbound := s.outbound ++ [row], nextOutboundId := s.nextOutboundId + 1 }

/-- Method `enqueueOutbound` from `src/queue.ts`.  `hash` abstracts the md5
`hashContent` helper. -/
def enqueueOutbound (hash : String → String) (s : Store) (now : Int)
    (queueType : String) (runId : Option String) (sessionKey chatId content : String) :
    EnqueueResult × Store :=
  let h := hash content
  let dedupCutoff := now - DEDUP_WINDOW_MS
  if s.outbound.any (outboundDupe h chatId dedupCutoff) then
    ({ enqueued := false, reason := some "duplicate_pending" }, s)
  else if s.sent.any (sentDupe h chatId dedupCutoff) then
    ({ enqueued := false, reason := some "already_sent" }, s)
  else
    let row := mkOutboundRow s.nextOutboundId now queueType (runId.getD "") sessionKey chatId content h
    ({ enqueued := true, id := some s.nextOutboundId }, insertOutboundRow s row)

/-- The `stmtDequeueOutbound` row filter:
`status = 'pending' AND (next_retry_at IS NULL OR next_retry_at <= ?)`. -/
def outboundDue (now : Int) (r : OutboundRow) : Bool :=
  decide (r.status = Status.pending) &&
    (match r.next_retry_at with
     | none => true
     | some t => decide (t ≤ now))

def outboundLe (a b : OutboundRow) : Prop := a.created_at ≤ b.created_at

instance : DecidableRel outboundLe := fun a b => Int.decLe a.created_at b.created_at

instance : IsTotal OutboundRow outboundLe := ⟨fun a b => Int.le_total a.created_at b.created_at⟩

instance : IsTrans OutboundRow outboundLe := ⟨fun _ _ _ h1 h2 => le_trans h1 h2⟩

/-- Method `dequeueOutbound` from `src/queue.ts`: a pure `SELECT` — filter by
`outboundDue`, `ORDER BY created_at ASC`, `LIMIT ?`; the store is
returned unmodified. -/
def dequeueOutbound (s : Store) (now : Int) (limit : Nat) :
    List OutboundRow × Store :=
  ((List.insertionSort outboundLe (s.outbound.filter (outboundDue now))).take limit, s)

/-- Method `markOutboundProcessing`: `SET status = 'processing', updated_at = ?
WHERE id = ?`. -/
def markOutboundProcessing (s : Store) (now : Int) (id : Nat) : Store :=
  let f := fun (r : OutboundRow) => { r with status := Status.processing, updated_at := now }
  { s with outbound := updateOutboundRows id f s.outbound }

/-- Method `markOutboundCompleted` from `src/queue.ts`: read the row, run
`stmtUpdateOutbound` with `('completed', now, retries, null, null, now,
larkMessageId)`, and append a `sent_messages` record when the row was
found. -/
def markOutboundCompleted (s : Store) (now : Int) (id : Nat)
    (larkMessageId : Option String) : Store :=
  let msg := s.outbound.find? (byOutboundId id)
  let retries := match msg with
    | some m => m.retries
    | none => 0
  let f := fun (r : OutboundRow) =>
    { r with status := Status.completed, updated_at := now,
             retries := retries, next_retry_at := none,
             last_error := none, completed_at := some now,
             lark_message_id := larkMessageId }
  let s1 := { s with outbound := updateOutboundRows id f s.outbound }
  match msg with
  | some m =>
      { s1 with sent := s1.sent ++
          [{ content_hash := m.content_hash, chat_id := m.chat_id,
             lark_message_id := larkMessageId, created_at := now }] }
  | none => s1

/-- Method `markOutboundRetry` from `src/queue.ts`: increment `retries`; at
`MAX_RETRIES` flip to `failed_permanent` (row kept), otherwise back to
`pending` with `next_retry_at = now + backoff`. -/
def markOutboundRetry (s : Store) (now : Int) (id : Nat) (errorMessage : String) : Store :=
  let msg := s.outbound.find? (byOutboundId id)
  let retries := (match msg with
    | some m => m.retries
    | none => 0) + 1
  if hasExceededMaxRetries retries then
    let f := fun (r : OutboundRow) =>
      { r with status := Status.failed_permanent, updated_at := now,
               retries := retries, next_retry_at := none,
               last_error := some errorMessage, completed_at := none,
               lark_message_id := none }
    { s with outbound := updateOutboundRows id f s.outbound }
  else
    let backoffMs := calculateBackoff retries
    let nextRetryAt := now + backoffMs
    let f := fun (r : OutboundRow) =>
      { r with status := Status.pending, updated_at := now,
               retries := retries, next_retry_at := some nextRetryAt,
               last_error := some errorMessage, completed_at := none,
               lark_message_id := none }
    { s with outbound := updateOutboundRows id f s.outbound }

-- ── Inbound queue operations (src/queue.ts) ─────────────────────

def byMessageId (m : String) : InboundRow → Bool := fun r => decide (r.message_id = m)

/-- The row `stmtEnqueueInbound` inserts. -/
def mkInboundRow (rowId : Nat) (now : Int) (messageId chatId sessionKey messageText : String)
    (attachmentsJson : Option String) : InboundRow :=
  { id := rowId, message_id := messageId, chat_id := chatId,
    session_key := sessionKey, message_text := messageText,
    attachments_json := attachmentsJson, status := Status.pending, retries := 0,
    next_retry_at := some now, created_at := now, updated_at := now,
    completed_at := none, response_text := none, last_error := none }

def insertInboundRow (s : Store) (row : InboundRow) : Store :=
  { s with inbound := s.inbound ++ [row], nextInboundId := s.nextInboundId + 1 }

/-- Method `enqueueInbound` from `src/queue.ts`: check `stmtCheckInboundExists`
keyed on `message_id`, report a duplicate, otherwise insert (the
`INSERT OR IGNORE` cannot conflict once the check missed, since
`message_id` is the only unique key).  The JSON serialization of the
attachments happens at this call boundary in the source; the model takes
the serialized `attachments_json` value directly. -/
def enqueueInbound (s : Store) (now : Int) (messageId chatId sessionKey messageText : String)
    (attachmentsJson : Option String) : EnqueueResult × Store :=
  match s.inbound.find? (byMessageId messageId) with
  | some existing =>
      ({ enqueued := false, reason := some "duplicate", existing := some existing.status }, s)
  | none =>
      let row := mkInboundRow s.nextInboundId now messageId chatId sessionKey messageText attachmentsJson
      ({ enqueued := true, id := some s.nextInboundId }, insertInboundRow s row)

/-- The `stmtDequeueInbound` row filter. -/
def inboundDue (now : Int) (r : InboundRow) : Bool :=
  decide (r.status = Status.pending) &&
    (match r.next_retry_at with
     | none => true
     | some t => decide (t ≤ now))

def inboundLe (a b : InboundRow) : Prop := a.created_at ≤ b.created_at

instance : DecidableRel inboundLe := fun a b => Int.decLe a.created_at b.created_at

instance : IsTotal InboundRow inboundLe := ⟨fun a b => Int.le_total a.created_at b.created_at⟩

instance : IsTrans InboundRow inboundLe := ⟨fun _ _ _ h1 h2 => le_trans h1 h2⟩

/-- Method `dequeueInbound` from `src/queue.ts`. -/
def dequeueInbound (s : Store) (now : Int) (limit : Nat) :
    List InboundRow × Store :=
  ((List.insertionSort inboundLe (s.inbound.filter (inboundDue now))).take limit, s)

/-- Method `markInboundProcessing`. -/
def markInboundProcessing (s : Store) (now : Int) (id : Nat) : Store :=
  let f := fun (r : InboundRow) => { r with status := Status.processing, updated_at := now }
  { s with inbound := updateInboundRows id f s.inbound }

/-- Method `markInboundCompleted`: `stmtUpdateInbound` with `('completed', now,
retries, null, null, now, responseText)`. -/
def markInboundCompleted (s : Store) (now : Int) (id : Nat) (responseText : String) : Store :=
  let msg := s.inbound.find? (byInboundId id)
  let retries := match msg with
    | some m => m.retries
    | none => 0
  let f := fun (r : InboundRow) =>
    { r with status := Status.completed, updated_at := now,
             retries := retries, next_retry_at := none,
             last_error := none, completed_at := some now,
             response_text := some responseText }
  { s with inbound := updateInboundRows id f s.inbound }

/-- Method `markInboundRetry` from `src/queue.ts` (same policy as the outbound
variant). -/
def markInboundRetry (s : Store) (now : Int) (id : Nat) (errorMessage : String) : Store :=
  let msg := s.inbound.find? (byInboundId id)
  let retries := (match msg with
    | some m => m.retries
    | none => 0) + 1
  if hasExceededMaxRetries retries then
    let f := fun (r : InboundRow) =>
      { r with status := Status.failed_permanent, updated_at := now,
               retries := retries, next_retry_at := none,
               last_error := some errorMessage, completed_at := none,
               response_text := none }
    { s with inbound := updateInboundRows id f s.inbound }
  else
    let backoffMs := calculateBackoff retries
    let nextRetryAt := now + backoffMs
    let f := fun (r : InboundRow) =>
      { r with status := Status.pending, updated_at := now,
               retries := retries, next_retry_at := some nextRetryAt,
               last_error := some errorMessage, completed_at := none,
               response_text := none }
    { s with inbound := updateInboundRows id f s.inbound }

-- ── Recovery and cleanup (src/queue.ts) ─────────────────────────

/-- Method `resetStuckMessages`, run on store open: unconditionally reset every
`processing` row to `pending` (the SQL also writes `retries = retries`,
an explicit no-op) and bump `updated_at`. -/
def resetStuckMessages (s : Store) (now : Int) : Store :=
  { s with
    inbound := s.inbound.map fun r =>
      if r.status = Status.processing then
        { r with status := Status.pending, updated_at := now }
      else r,
    outbound := s.outbound.map fun r =>
      if r.status = Status.processing then
        { r with status := Status.pending, updated_at := now }
      else r }

/-- Method `recoverStuck`: periodic sweep resetting rows stuck in `processing`
for more than five minutes. -/
def recoverStuck (s : Store) (now : Int) : Store :=
  let fiveMinAgo := now - 5 * 60 * 1000
  { s with
    inbound := s.inbound.map fun r =>
      if r.status = Status.processing ∧ r.updated_at < fiveMinAgo then
        { r with status := Status.pending, updated_at := now }
      else r,
    outbound := s.outbound.map fun r =>
      if r.status = Status.processing ∧ r.updated_at < fiveMinAgo then
        { r with status := Status.pending, updated_at := now }
      else r }

/-- Method `cleanup` (the database part): delete `completed` rows older than the
TTL from both queues, and old `sent_messages` records.  The media-file
sweep is a file-system side effect outside the store model. -/
def cleanup (s : Store) (now : Int) : Store :=
  let cutoff := now - MESSAGE_TTL_MS
  { s with
    outbound := s.outbound.filter fun r =>
      !(decide (r.created_at < cutoff) && decide (r.status = Status.completed)),
    inbound := s.inbound.filter fun r =>
      !(decide (r.created_at < cutoff) && decide (r.status = Status.completed)),
    sent := s.sent.filter fun r => !(decide (r.created_at < cutoff)) }

-- ── Message-type classifier (src/card-builder.ts) ───────────────

inductive MessageType where
  | skip
  | text
  | interactive
deriving DecidableEq, Repr

/-- The value of JavaScript `t.split('\n').length`: for the
one-character separator this is exactly one more than the number of
newline characters in `t` (also for the empty string, where both sides
are 1). -/
def lineCount (t : String) : Nat := t.data.count '\n' + 1

/-- Function `selectMessageType` from `src/card-builder.ts`: absent or empty text
and the `NO_REPLY` / `HEARTBEAT_OK` sentinels are skipped; text shorter
than 100 characters with at most two lines is sent as plain text;
everything else becomes an interactive card.  (JavaScript `!text` is
true exactly for `null`, `undefined` and the empty string; `length`
counts are identical for the ASCII strings involved here.) -/
def selectMessageType (text : Option String) : MessageType :=
  match text with
  | none => MessageType.skip
  | some t =>
    if t = "" ∨ t = "NO_REPLY" ∨ t = "HEARTBEAT_OK" then MessageType.skip
    else if t.length < 100 ∧ lineCount t ≤ 2 then MessageType.text
    else MessageType.interactive

-- ── Transport-level send loop (dist/src/channel.js) ─────────────

def SEND_MAX_RETRIES : Nat := 120

def SEND_RETRY_BASE_MS : Int := 1000

def SEND_RETRY_MAX_MS : Int := 120 * 60 * 1000

/-- Function `calculateSendBackoff` from `channel.ts` / `dist/src/channel.js`:
`SEND_RETRY_BASE_MS * Math.pow(2, Math.min(attempt - 1, 17))` capped at
`SEND_RETRY_MAX_MS` (`attempt` counts from 1, so the `Nat` subtraction
matches the JavaScript one). -/
def calculateSendBackoff (attempt : Nat) : Int :=
  min (SEND_RETRY_BASE_MS * 2 ^ (min (attempt - 1) 17)) SEND_RETRY_MAX_MS

/-- The `NON_RETRYABLE_CODES` set from `dist/src/channel.js`. -/
def NON_RETRYABLE_CODES : List Nat :=
  [99991400, 99991401, 230001, 230002, 230006, 230014, 232009]

/-- JavaScript `\w` (ASCII letters, digits, underscore). -/
def isWordChar (c : Char) : Bool := c.isAlpha || c.isDigit || c = '_'

def digitsToNat (ds : List Char) : Nat :=
  ds.foldl (fun n c => 10 * n + (c.toNat - 48)) 0

def boundaryOk (before : Option Char) : Bool :=
  match before with
  | none => true
  | some ch => !(isWordChar ch)

/-- Scanner for the regex `\b(\d{5,})\b` applied by the send loop to the
transport error string: the leftmost maximal digit run of length at
least five whose neighbouring characters (when present) are non-word
characters.  `before` is the character preceding the current digit run
(`run`, kept reversed). -/
def findFirstCode (before : Option Char) (run : List Char) : List Char → Option Nat
  | [] =>
    if 5 ≤ run.length ∧ boundaryOk before = true then some (digitsToNat run.reverse)
    else none
  | c :: rest =>
    if c.isDigit then findFirstCode before (c :: run) rest
    else if 5 ≤ run.length ∧ boundaryOk before = true ∧ isWordChar c = false then
      some (digitsToNat run.reverse)
    else findFirstCode (some c) [] rest

/-- Expression `lastError.match` with the code regex followed by `Number(codeMatch[1])`. -/
def extractErrorCode (s : String) : Option Nat :=
  findFirstCode none [] s.data

/-- The non-retryable short-circuit test from `dist/src/channel.js`:
`codeMatch && NON_RETRYABLE_CODES.has(Number(codeMatch[1]))`. -/
def isNonRetryable (err : String) : Bool :=
  match extractErrorCode err with
  | some c => NON_RETRYABLE_CODES.contains c
  | none => false

/-- One attempt of `client.sendText` / `client.sendCard`: the call either
returns `{success: true, messageId?}`, returns `{success: false,
error?}`, or throws. -/
inductive AttemptOutcome where
  | ok (messageId : Option String)
  | fail (error : Option String)
  | thrown (message : String)

/-- The value of one `sendToLarkWithRetry` call. -/
inductive SendResult where
  | skipped
  | sent (messageId : Option String)
  | failed (error : Option String)
deriving DecidableEq, Repr

/-- A `sendToLarkWithRetry` run together with how many transport attempts
it made and which in-process sleeps it performed (in order). -/
structure SendTrace where
  result : SendResult
  attempts : Nat
  sleeps : List Int
deriving DecidableEq, Repr

/-- The retry loop body of `sendToLarkWithRetry` in `dist/src/channel.js`
(`for attempt = 1 .. SEND_MAX_RETRIES`), driven by the outcome of each
transport attempt.  `remaining` counts the loop iterations left
(`SEND_MAX_RETRIES - attempt + 1` at the top-level call):
* a successful attempt returns the message id at once;
* a returned error whose extracted code is non-retryable returns the
  error at once, with no sleep;
* any other failure sleeps `calculateSendBackoff attempt` (except after
  the final attempt) and retries. -/
def sendLoop (outcomes : Nat → AttemptOutcome) (attempt : Nat) (remaining : Nat)
    (lastError : Option String) : SendTrace :=
  match remaining with
  | 0 => { result := SendResult.failed lastError, attempts := 0, sleeps := [] }
  | r + 1 =>
    match outcomes attempt with
    | AttemptOutcome.ok mid => { result := SendResult.sent mid, attempts := 1, sleeps := [] }
    | AttemptOutcome.fail e =>
      let err := e.getD "Unknown error"
      if isNonRetryable err then
        { result := SendResult.failed (some err), attempts := 1, sleeps := [] }
      else if attempt < SEND_MAX_RETRIES then
        let cont := sendLoop outcomes (attempt + 1) r (some err)
        { result := cont.result, attempts := cont.attempts + 1,
          sleeps := calculateSendBackoff attempt :: cont.sleeps }
      else
        { result := SendResult.failed (some err), attempts := 1, sleeps := [] }
    | AttemptOutcome.thrown m =>
      if attempt < SEND_MAX_RETRIES then
        let cont := sendLoop outcomes (attempt + 1) r (some m)
        { result := cont.result, attempts := cont.attempts + 1,
          sleeps := calculateSendBackoff attempt :: cont.sleeps }
      else
        { result := SendResult.failed (some m), attempts := 1, sleeps := [] }

/-- Function `sendToLarkWithRetry` from `dist/src/channel.js`: skip-classified
content returns `{skipped: true}` before any transport attempt;
otherwise the bounded retry loop runs. -/
def sendToLarkWithRetry (content : String) (outcomes : Nat → AttemptOutcome) : SendTrace :=
  if selectMessageType (some content) = MessageType.skip then
    { result := SendResult.skipped, attempts := 0, sleeps := [] }
  else
    sendLoop outcomes 1 SEND_MAX_RETRIES none

/-- The per-item body of `processOutboundQueue` in `channel.ts`: mark the
row processing, send, then mark completed (a skip completes with a null
message id) or mark for retry (the transport error text, defaulting to Unknown error,
becomes the stored error text; a success without a message id also
falls through to the retry path). -/
def processOutboundItem (s : Store) (now : Int) (id : Nat) (res : SendResult) : Store :=
  let s1 := markOutboundProcessing s now id
  match res with
  | SendResult.skipped => markOutboundCompleted s1 now id none
  | SendResult.sent (some mid) => markOutboundCompleted s1 now id (some mid)
  | SendResult.sent none => markOutboundRetry s1 now id "Unknown error"
  | SendResult.failed e => markOutboundRetry s1 now id (e.getD "Unknown error")

-- ── Iterated retries (consecutive markRetry calls on one row) ───

/-- Here `calls` is the list of `(Date.now(), errorMessage)` pairs of
consecutive `markOutboundRetry` invocations targeting row `id`. -/
def applyOutboundRetries (s : Store) (calls : List (Int × String)) (id : Nat) : Store :=
  calls.foldl (fun st c => markOutboundRetry st c.1 id c.2) s

def applyInboundRetries (s : Store) (calls : List (Int × String)) (id : Nat) : Store :=
  calls.foldl (fun st c => markInboundRetry st c.1 id c.2) s

-- ── Concrete fixtures used by witness instances ─────────────────

/-- A fresh pending outbound row as `enqueueOutbound` creates it. -/
def outRow0 : OutboundRow :=
  { id := 1, queue_type := "reply", run_id := "", session_key := "sk", chat_id := "chat",
    content := "hello", content_hash := "hello", status := Status.pending, retries := 0,
    next_retry_at := some 0, created_at := 0, updated_at := 0, completed_at := none,
    lark_message_id := none, last_error := none }

def inRow0 : InboundRow :=
  { id := 1, message_id := "m1", chat_id := "chat", session_key := "sk",
    message_text := "hi", attachments_json := none, status := Status.pending,
    retries := 0, next_retry_at := some 0, created_at := 0, updated_at := 0,
    completed_at := none, response_text := none, last_error := none }

def fixtureStore : Store :=
  { outbound := [outRow0], inbound := [inRow0], sent := [],
    nextOutboundId := 2, nextInboundId := 2 }

/-- A text with three paragraphs, as in the spec scenario for the rich
message type. -/
def longMultiParagraph : String :=
  "This reply has several paragraphs.\n\nIt explains the steps in detail.\n\nAnd it ends with a summary."

def procInRow : InboundRow := { inRow0 with status := Status.processing, retries := 3 }

def procOutRow : OutboundRow := { outRow0 with status := Status.processing, retries := 2 }

def procStore : Store :=
  { outbound := [procOutRow], inbound := [procInRow], sent := [],
    nextOutboundId := 2, nextInboundId := 2 }

def termInRow : InboundRow :=
  { inRow0 with status := Status.completed, completed_at := some 1,
                response_text := some "ok" }

def termOutRow : OutboundRow :=
  { outRow0 with status := Status.failed_permanent, last_error := some "boom" }

def termStore : Store :=
  { outbound := [termOutRow], inbound := [termInRow], sent := [],
    nextOutboundId := 2, nextInboundId := 2 }

/-- Intermediate stores of the C4 dedup scenario (only used to state the
computation steps explicitly). -/
def c4Store1 (hash : String → String) (t0 : Int) (qt sk c1 content : String) : Store :=
  { outbound := [mkOutboundRow 1 t0 qt "" sk c1 content (hash content)],
    inbound := [], sent := [], nextOutboundId := 2, nextInboundId := 1 }

def c4CompletedRow (hash : String → String) (t0 t1 : Int) (qt sk c1 content mid : String) :
    OutboundRow :=
  { mkOutboundRow 1 t0 qt "" sk c1 content (hash content) with
    status := Status.completed, updated_at := t1, retries := 0,
    next_retry_at := none, last_error := none, completed_at := some t1,
    lark_message_id := some mid }

def c4SentRow (hash : String → String) (t1 : Int) (c1 content mid : String) : SentRow :=
  { content_hash := hash content, chat_id := c1, lark_message_id := some mid, created_at := t1 }

def c4Store2 (hash : String → String) (t0 t1 : Int) (qt sk c1 content mid : String) : Store :=
  { outbound := [c4CompletedRow hash t0 t1 qt sk c1 content mid],
    inbound := [], sent := [c4SentRow hash t1 c1 content mid],
    nextOutboundId := 2, nextInboundId := 1 }

-- ── Generic list helper lemmas ──────────────────────────────────

theorem find?_map_ite {α : Type} (p : α → Prop) [DecidablePred p] (f : α → α)
    (hf : ∀ r, p (f r) ↔ p r) (l : List α) :
    (l.map fun r => if p r then f r else r).find? (fun r => decide (p r)) =
      (l.find? fun r => decide (p r)).map f := by
  induction l with
  | nil => rfl
  | cons a t ih =>
    by_cases h : p a
    · rw [List.map_cons, if_pos h,
        List.find?_cons_of_pos _ (by simpa using (hf a).mpr h),
        List.find?_cons_of_pos _ (by simpa using h)]
      rfl
    · rw [List.map_cons, if_neg h,
        List.find?_cons_of_neg _ (by simpa using h),
        List.find?_cons_of_neg _ (by simpa using h), ih]

theorem map_ite_of_forall_not {α : Type} (p : α → Prop) [DecidablePred p] (f : α → α)
    (l : List α) (h : ∀ r ∈ l, ¬ p r) :
    (l.map fun r => if p r then f r else r) = l := by
  induction l with
  | nil => rfl
  | cons a t ih =>
    rw [List.map_cons, if_neg (h a (by simp)), ih (fun r hr => h r (by simp [hr]))]

theorem find?_append_of_none {α : Type} (p : α → Bool) (l1 l2 : List α)
    (h : l1.find? p = none) : (l1 ++ l2).find? p = l2.find? p := by
  induction l1 with
  | nil => rfl
  | cons a t ih =>
    rw [List.find?_cons] at h
    rcases hb : p a with _ | _
    · rw [List.cons_append, List.find?_cons_of_neg _ (by simp [hb])]
      exact ih (by rw [hb] at h; simpa using h)
    · rw [hb] at h; simp at h

-- ── Unfolding lemmas for the enqueue operations ─────────────────

theorem enqueueInbound_dup (s : Store) (now : Int) (m c k t : String) (a : Option String)
    (e : InboundRow) (h : s.inbound.find? (byMessageId m) = some e) :
    enqueueInbound s now m c k t a =
      ({ enqueued := false, reason := some "duplicate", existing := some e.status }, s) := by
  simp only [enqueueInbound, h]

theorem enqueueInbound_fresh (s : Store) (now : Int) (m c k t : String) (a : Option String)
    (h : s.inbound.find? (byMessageId m) = none) :
    enqueueInbound s now m c k t a =
      ({ enqueued := true, id := some s.nextInboundId },
        insertInboundRow s (mkInboundRow s.nextInboundId now m c k t a)) := by
  simp only [enqueueInbound, h]

theorem enqueueOutbound_dupPending (hash : String → String) (s : Store) (now : Int)
    (qt : String) (rid : Option String) (sk c content : String)
    (h : s.outbound.any (outboundDupe (hash content) c (now - DEDUP_WINDOW_MS)) = true) :
    enqueueOutbound hash s now qt rid sk c content =
      ({ enqueued := false, reason := some "duplicate_pending" }, s) := by
  simp only [enqueueOutbound, h, if_true]

theorem enqueueOutbound_alreadySent (hash : String → String) (s : Store) (now : Int)
    (qt : String) (rid : Option String) (sk c content : String)
    (h1 : s.outbound.any (outboundDupe (hash content) c (now - DEDUP_WINDOW_MS)) = false)
    (h2 : s.sent.any (sentDupe (hash content) c (now - DEDUP_WINDOW_MS)) = true) :
    enqueueOutbound hash s now qt rid sk c content =
      ({ enqueued := false, reason := some "already_sent" }, s) := by
  simp only [enqueueOutbound, h1, h2, if_true, Bool.false_eq_true, if_false]

theorem enqueueOutbound_fresh (hash : String → String) (s : Store) (now : Int)
    (qt : String) (rid : Option String) (sk c content : String)
    (h1 : s.outbound.any (outboundDupe (hash content) c (now - DEDUP_WINDOW_MS)) = false)
    (h2 : s.sent.any (sentDupe (hash content) c (now - DEDUP_WINDOW_MS)) = false) :
    enqueueOutbound hash s now qt rid sk c content =
      ({ enqueued := true, id := some s.nextOutboundId },
        insertOutboundRow s
          (mkOutboundRow s.nextOutboundId now qt (rid.getD "") sk c content (hash content))) := by
  simp only [enqueueOutbound, h1, h2, Bool.false_eq_true, if_false]

-- ── Claim theorems ──────────────────────────────────────────────

/-- Claim C1: the queue-level backoff (`calculateBackoff`, used by
`markRetry` with the new retry count) and the transport-level backoff
(`calculateSendBackoff`) are NOT the identical function
`min(1000 * 2 ^ min(n-1, 17), 120*60*1000)`: for the first retry the
queue waits 2000 ms (it computes `2 ^ min(n, 17)`, without the `- 1`)
while the transport sleeps 1000 ms, and the mismatch persists up to
`n = 13`; `markOutboundRetry` on a fresh row indeed schedules
`next_retry_at = now + 2000`, twice the claimed value, and the first
transport sleep is 1000 ms. -/
theorem C1_backoff_not_identical :
    calculateBackoff 1 = 2000 ∧
    calculateSendBackoff 1 = 1000 ∧
    calculateBackoff 1 ≠ calculateSendBackoff 1 ∧
    calculateBackoff 13 = 7200000 ∧
    calculateSendBackoff 13 = 4096000 ∧
    calculateBackoff 14 = calculateSendBackoff 14 ∧
    (markOutboundRetry fixtureStore 0 1 "boom").outbound.find? (byOutboundId 1) =
      some { outRow0 with status := Status.pending, updated_at := 0, retries := 1,
                          next_retry_at := some 2000, last_error := some "boom",
                          completed_at := none, lark_message_id := none } ∧
    (sendToLarkWithRetry "hello"
        (fun n => if n = 1 then AttemptOutcome.fail (some "boom")
                  else AttemptOutcome.ok (some "mid"))).sleeps = [1000] := by
  refine ⟨by decide, by decide, by decide, by decide, by decide, by decide, by decide, by decide⟩

/-- Claim C2: inside one queue-processing attempt, when the transport
returns a failure whose extracted numeric code is in
`NON_RETRYABLE_CODES`, the inner send loop stops after that single
attempt with no sleep and returns the error; and a failed send result is
handed to the queue layer as `markOutboundRetry` (after the initial
`markOutboundProcessing`), i.e. it is subject to the queue-level
retry. -/
theorem C2_nonretryable_short_circuit
    (outcomes : Nat → AttemptOutcome) (content err : String) (c : Nat)
    (h1 : outcomes 1 = AttemptOutcome.fail (some err))
    (h2 : extractErrorCode err = some c)
    (h3 : c ∈ NON_RETRYABLE_CODES)
    (h4 : selectMessageType (some content) ≠ MessageType.skip) :
    sendToLarkWithRetry content outcomes =
      { result := SendResult.failed (some err), attempts := 1, sleeps := [] } ∧
    (∀ (s : Store) (now : Int) (id : Nat),
      processOutboundItem s now id (SendResult.failed (some err)) =
        markOutboundRetry (markOutboundProcessing s now id) now id err) := by
  have hnr : isNonRetryable err = true := by
    unfold isNonRetryable
    rw [h2]
    simpa using h3
  constructor
  · unfold sendToLarkWithRetry
    rw [if_neg h4]
    show sendLoop outcomes 1 (119 + 1) none = _
    unfold sendLoop
    rw [h1]
    simp [hnr]
  · intro s now id
    rfl

theorem C2_nonretryable_short_circuit_witness :
    sendToLarkWithRetry "hello"
        (fun _ => AttemptOutcome.fail (some "permission denied: 230001")) =
      { result := SendResult.failed (some "permission denied: 230001"),
        attempts := 1, sleeps := [] } ∧
    processOutboundItem emptyStore 5 1
        (SendResult.failed (some "permission denied: 230001")) =
      markOutboundRetry (markOutboundProcessing emptyStore 5 1) 5 1
        "permission denied: 230001" := by
  have h := C2_nonretryable_short_circuit
    (fun _ => AttemptOutcome.fail (some "permission denied: 230001"))
    "hello" "permission denied: 230001" 230001
    rfl (by decide) (by decide) (by decide)
  exact ⟨h.1, h.2 emptyStore 5 1⟩

/-- Claim C9: `selectMessageType` is a pure classifier: absent text, the
empty string and the `NO_REPLY` / `HEARTBEAT_OK` sentinels are skipped;
short text (under 100 characters, at most 2 lines) is plain text (in
particular `"hi"`); everything else — in particular a long
multi-paragraph text — is the rich interactive type; skip-classified
content makes `sendToLarkWithRetry` return `skipped` with zero transport
attempts and no sleeps, and a skipped item is completed (with a null
message id) by the outbound consumer like a success. -/
theorem C9_classifier :
    (∀ t : Option String,
      (t = none ∨ t = some "" ∨ t = some "NO_REPLY" ∨ t = some "HEARTBEAT_OK") →
        selectMessageType t = MessageType.skip) ∧
    (∀ t : String, t ≠ "" → t ≠ "NO_REPLY" → t ≠ "HEARTBEAT_OK" →
      t.length < 100 → lineCount t ≤ 2 → selectMessageType (some t) = MessageType.text) ∧
    selectMessageType (some "hi") = MessageType.text ∧
    (∀ t : String, ¬(t.length < 100 ∧ lineCount t ≤ 2) →
      selectMessageType (some t) = MessageType.interactive) ∧
    selectMessageType (some longMultiParagraph) = MessageType.interactive ∧
    (∀ (content : String) (outcomes : Nat → AttemptOutcome),
      selectMessageType (some content) = MessageType.skip →
        sendToLarkWithRetry content outcomes =
          { result := SendResult.skipped, attempts := 0, sleeps := [] }) ∧
    (∀ (s : Store) (now : Int) (id : Nat),
      processOutboundItem s now id SendResult.skipped =
        markOutboundCompleted (markOutboundProcessing s now id) now id none) := by
  refine ⟨?_, ?_, by decide, ?_, by decide, ?_, ?_⟩
  · rintro t (rfl | rfl | rfl | rfl) <;> decide
  · intro t h1 h2 h3 hlen hlines
    show (if t = "" ∨ t = "NO_REPLY" ∨ t = "HEARTBEAT_OK" then MessageType.skip
          else if t.length < 100 ∧ lineCount t ≤ 2 then MessageType.text
          else MessageType.interactive) = MessageType.text
    rw [if_neg (by rintro (h | h | h) <;> [exact h1 h; exact h2 h; exact h3 h]),
      if_pos ⟨hlen, hlines⟩]
  · intro t h
    have h1 : ¬(t = "" ∨ t = "NO_REPLY" ∨ t = "HEARTBEAT_OK") := by
      rintro (rfl | rfl | rfl) <;> exact h (by decide)
    show (if t = "" ∨ t = "NO_REPLY" ∨ t = "HEARTBEAT_OK" then MessageType.skip
          else if t.length < 100 ∧ lineCount t ≤ 2 then MessageType.text
          else MessageType.interactive) = MessageType.interactive
    rw [if_neg h1, if_neg h]
  · intro content outcomes h
    unfold sendToLarkWithRetry
    rw [if_pos h]
  · intro s now id
    rfl

theorem C9_classifier_witness :
    selectMessageType (some "sounds good") = MessageType.text ∧
    selectMessageType (some longMultiParagraph) = MessageType.interactive ∧
    sendToLarkWithRetry "NO_REPLY" (fun _ => AttemptOutcome.ok (some "mid")) =
      { result := SendResult.skipped, attempts := 0, sleeps := [] } ∧
    processOutboundItem fixtureStore 7 1 SendResult.skipped =
      markOutboundCompleted (markOutboundProcessing fixtureStore 7 1) 7 1 none := by
  refine ⟨?_, C9_classifier.2.2.2.2.1, ?_, ?_⟩
  · exact C9_classifier.2.1 "sounds good" (by decide) (by decide) (by decide)
      (by decide) (by decide)
  · exact C9_classifier.2.2.2.2.2.1 "NO_REPLY" _ (by decide)
  · exact C9_classifier.2.2.2.2.2.2 fixtureStore 7 1

/-- Claim C10: every `mark*` operation invoked with an id that has no row
in its queue table leaves the store entirely unchanged; in particular
`markOutboundCompleted` appends no `sent_messages` record for a missing
id. -/
theorem C10_missing_id_noop (s : Store) (now : Int) (id : Nat) (resp err : String)
    (mid : Option String)
    (hin : s.inbound.find? (byInboundId id) = none)
    (hout : s.outbound.find? (byOutboundId id) = none) :
    markInboundProcessing s now id = s ∧
    markInboundCompleted s now id resp = s ∧
    markInboundRetry s now id err = s ∧
    markOutboundProcessing s now id = s ∧
    markOutboundCompleted s now id mid = s ∧
    markOutboundRetry s now id err = s := by
  have hids : ∀ r ∈ s.inbound, ¬ (r.id = id) := fun r hr => by
    simpa [byInboundId] using List.find?_eq_none.mp hin r hr
  have hido : ∀ r ∈ s.outbound, ¬ (r.id = id) := fun r hr => by
    simpa [byOutboundId] using List.find?_eq_none.mp hout r hr
  have hmi : ∀ f, updateInboundRows id f s.inbound = s.inbound := fun f =>
    map_ite_of_forall_not _ f s.inbound hids
  have hmo : ∀ f, updateOutboundRows id f s.outbound = s.outbound := fun f =>
    map_ite_of_forall_not _ f s.outbound hido
  refine ⟨?_, ?_, ?_, ?_, ?_, ?_⟩
  · simp only [markInboundProcessing, hmi]
  · simp only [markInboundCompleted, hin, hmi]
  · simp only [markInboundRetry, hin, hmi, hasExceededMaxRetries, MAX_RETRIES]
    norm_num
  · simp only [markOutboundProcessing, hmo]
  · simp only [markOutboundCompleted, hout, hmo]
  · simp only [markOutboundRetry, hout, hmo, hasExceededMaxRetries, MAX_RETRIES]
    norm_num

theorem C10_missing_id_noop_witness :
    markInboundProcessing fixtureStore 3 7 = fixtureStore ∧
    markInboundCompleted fixtureStore 3 7 "resp" = fixtureStore ∧
    markInboundRetry fixtureStore 3 7 "err" = fixtureStore ∧
    markOutboundProcessing fixtureStore 3 7 = fixtureStore ∧
    markOutboundCompleted fixtureStore 3 7 (some "mid") = fixtureStore ∧
    markOutboundRetry fixtureStore 3 7 "err" = fixtureStore :=
  C10_missing_id_noop fixtureStore 3 7 "resp" "err" (some "mid") (by decide) (by decide)

/-- Claim C5: calling `enqueueInbound` twice with the same
`externalMessageId` (on a store not yet containing it) stores exactly one
row: the first call enqueues it (returning the fresh row id), the second
returns `enqueued = false`, `reason = "duplicate"` and changes nothing. -/
theorem C5_inbound_idempotent (s : Store) (now1 now2 : Int)
    (m chatId sk text : String) (att : Option String)
    (chatId2 sk2 text2 : String) (att2 : Option String)
    (hfresh : s.inbound.find? (byMessageId m) = none) :
    (enqueueInbound s now1 m chatId sk text att).1 =
      { enqueued := true, id := some s.nextInboundId } ∧
    ((enqueueInbound s now1 m chatId sk text att).2.inbound.countP (byMessageId m) = 1 ∧
      (enqueueInbound (enqueueInbound s now1 m chatId sk text att).2
          now2 m chatId2 sk2 text2 att2).1 =
        { enqueued := false, reason := some "duplicate", existing := some Status.pending } ∧
      (enqueueInbound (enqueueInbound s now1 m chatId sk text att).2
          now2 m chatId2 sk2 text2 att2).2 =
        (enqueueInbound s now1 m chatId sk text att).2) := by
  have hcount : s.inbound.countP (byMessageId m) = 0 := by
    rw [List.countP_eq_zero]
    intro r hr
    have := List.find?_eq_none.mp hfresh r hr
    simpa using this
  have h1 := enqueueInbound_fresh s now1 m chatId sk text att hfresh
  have hstep : (enqueueInbound s now1 m chatId sk text att).2.inbound =
      s.inbound ++ [mkInboundRow s.nextInboundId now1 m chatId sk text att] := by
    rw [h1]
    rfl
  have hfind : (enqueueInbound s now1 m chatId sk text att).2.inbound.find?
      (byMessageId m) =
      some (mkInboundRow s.nextInboundId now1 m chatId sk text att) := by
    rw [hstep, find?_append_of_none _ _ _ hfresh]
    simp [byMessageId, mkInboundRow]
  have h2 := enqueueInbound_dup (enqueueInbound s now1 m chatId sk text att).2
    now2 m chatId2 sk2 text2 att2 _ hfind
  constructor
  · rw [h1]
  · refine ⟨?_, ?_, ?_⟩
    · rw [hstep, List.countP_append, hcount]
      simp [byMessageId, mkInboundRow]
    · rw [h2]
      rfl
    · rw [h2]

/-- Claim C4: `enqueueOutbound` rejects as `duplicate_pending` when a
pending/processing row with the same `(contentHash, chatId)` lies inside
the dedup window, else as `already_sent` when a recent `SentRecord`
matches, else inserts exactly one fresh pending row (store otherwise
unchanged); and the scenario: after enqueueing and completing a message
to `c1`, an immediate re-enqueue of the same content to `c1` is rejected
`already_sent` (store unchanged) while the same content to a different
chat `c2` succeeds. -/
theorem C4_outbound_dedup :
    (∀ (hash : String → String) (s : Store) (now : Int) (qt : String)
       (rid : Option String) (sk c content : String),
      (s.outbound.any (outboundDupe (hash content) c (now - DEDUP_WINDOW_MS)) = true →
        enqueueOutbound hash s now qt rid sk c content =
          ({ enqueued := false, reason := some "duplicate_pending" }, s)) ∧
      (s.outbound.any (outboundDupe (hash content) c (now - DEDUP_WINDOW_MS)) = false →
        s.sent.any (sentDupe (hash content) c (now - DEDUP_WINDOW_MS)) = true →
        enqueueOutbound hash s now qt rid sk c content =
          ({ enqueued := false, reason := some "already_sent" }, s)) ∧
      (s.outbound.any (outboundDupe (hash content) c (now - DEDUP_WINDOW_MS)) = false →
        s.sent.any (sentDupe (hash content) c (now - DEDUP_WINDOW_MS)) = false →
        enqueueOutbound hash s now qt rid sk c content =
          ({ enqueued := true, id := some s.nextOutboundId },
            insertOutboundRow s
              (mkOutboundRow s.nextOutboundId now qt (rid.getD "") sk c content
                (hash content))))) ∧
    (∀ (hash : String → String) (qt sk c1 c2 content : String) (t0 t1 : Int) (mid : String),
      c1 ≠ c2 →
      (enqueueOutbound hash emptyStore t0 qt none sk c1 content).1.enqueued = true ∧
      (enqueueOutbound hash
          (markOutboundCompleted (enqueueOutbound hash emptyStore t0 qt none sk c1 content).2
            t1 1 (some mid))
          t1 qt none sk c1 content).1 =
        { enqueued := false, reason := some "already_sent" } ∧
      (enqueueOutbound hash
          (markOutboundCompleted (enqueueOutbound hash emptyStore t0 qt none sk c1 content).2
            t1 1 (some mid))
          t1 qt none sk c1 content).2 =
        markOutboundCompleted (enqueueOutbound hash emptyStore t0 qt none sk c1 content).2
          t1 1 (some mid) ∧
      (enqueueOutbound hash
          (markOutboundCompleted (enqueueOutbound hash emptyStore t0 qt none sk c1 content).2
            t1 1 (some mid))
          t1 qt none sk c2 content).1.enqueued = true) := by
  constructor
  · intro hash s now qt rid sk c content
    refine ⟨?_, ?_, ?_⟩
    · intro h1
      exact enqueueOutbound_dupPending hash s now qt rid sk c content h1
    · intro h1 h2
      exact enqueueOutbound_alreadySent hash s now qt rid sk c content h1 h2
    · intro h1 h2
      exact enqueueOutbound_fresh hash s now qt rid sk c content h1 h2
  · intro hash qt sk c1 c2 content t0 t1 mid hne
    have e1 : enqueueOutbound hash emptyStore t0 qt none sk c1 content =
        ({ enqueued := true, id := some 1 }, c4Store1 hash t0 qt sk c1 content) := by
      rw [enqueueOutbound_fresh hash emptyStore t0 qt none sk c1 content rfl rfl]
      rfl
    have e2 : markOutboundCompleted
        (enqueueOutbound hash emptyStore t0 qt none sk c1 content).2 t1 1 (some mid) =
        c4Store2 hash t0 t1 qt sk c1 content mid := by
      rw [e1]
      rfl
    have hany1 : (c4Store2 hash t0 t1 qt sk c1 content mid).outbound.any
        (outboundDupe (hash content) c1 (t1 - DEDUP_WINDOW_MS)) = false := by
      simp [c4Store2, c4CompletedRow, mkOutboundRow, outboundDupe]
    have hany2 : (c4Store2 hash t0 t1 qt sk c1 content mid).sent.any
        (sentDupe (hash content) c1 (t1 - DEDUP_WINDOW_MS)) = true := by
      simp [c4Store2, c4SentRow, sentDupe, DEDUP_WINDOW_MS]
    have hany1c : (c4Store2 hash t0 t1 qt sk c1 content mid).outbound.any
        (outboundDupe (hash content) c2 (t1 - DEDUP_WINDOW_MS)) = false := by
      simp [c4Store2, c4CompletedRow, mkOutboundRow, outboundDupe, hne]
    have hany2c : (c4Store2 hash t0 t1 qt sk c1 content mid).sent.any
        (sentDupe (hash content) c2 (t1 - DEDUP_WINDOW_MS)) = false := by
      simp [c4Store2, c4SentRow, sentDupe, hne]
    have e3 := enqueueOutbound_alreadySent hash (c4Store2 hash t0 t1 qt sk c1 content mid)
      t1 qt none sk c1 content hany1 hany2
    refine ⟨by rw [e1], ?_, ?_, ?_⟩
    · rw [e2, e3]
    · rw [e2, e3]
    · rw [e2, enqueueOutbound_fresh hash (c4Store2 hash t0 t1 qt sk c1 content mid)
        t1 qt none sk c2 content hany1c hany2c]

theorem C4_outbound_dedup_witness :
    enqueueOutbound (fun x => x) fixtureStore 0 "reply" none "s" "chat" "hello" =
      ({ enqueued := false, reason := some "duplicate_pending" }, fixtureStore) ∧
    (enqueueOutbound (fun x => x) emptyStore 0 "reply" none "s" "a" "m").1.enqueued = true ∧
    (enqueueOutbound (fun x => x)
        (markOutboundCompleted (enqueueOutbound (fun x => x) emptyStore 0 "reply" none "s" "a" "m").2
          1 1 (some "d"))
        1 "reply" none "s" "a" "m").1 =
      { enqueued := false, reason := some "already_sent" } ∧
    (enqueueOutbound (fun x => x)
        (markOutboundCompleted (enqueueOutbound (fun x => x) emptyStore 0 "reply" none "s" "a" "m").2
          1 1 (some "d"))
        1 "reply" none "s" "b" "m").1.enqueued = true := by
  have hgen := (C4_outbound_dedup.1 (fun x => x) fixtureStore 0 "reply" none "s" "chat" "hello").1
    (by decide)
  have hsc := C4_outbound_dedup.2 (fun x => x) "reply" "s" "a" "b" "m" 0 1 "d" (by decide)
  exact ⟨hgen, hsc.1, hsc.2.1, hsc.2.2.2⟩

/-- Claim C7: on store open, `resetStuckMessages` resets every
`processing` row (inbound and outbound) to `pending` unconditionally,
changing only `status` and `updated_at` — in particular `retries` is
untouched — and leaves rows in any other status, the sent ledger and
the id counters unchanged. -/
theorem C7_reset_stuck (s : Store) (now : Int) :
    (resetStuckMessages s now).inbound.length = s.inbound.length ∧
    (resetStuckMessages s now).outbound.length = s.outbound.length ∧
    (resetStuckMessages s now).sent = s.sent ∧
    (resetStuckMessages s now).nextInboundId = s.nextInboundId ∧
    (resetStuckMessages s now).nextOutboundId = s.nextOutboundId ∧
    (∀ (i : Nat) (h1 : i < s.inbound.length)
       (h2 : i < (resetStuckMessages s now).inbound.length),
      ((s.inbound.get ⟨i, h1⟩).status = Status.processing →
        (resetStuckMessages s now).inbound.get ⟨i, h2⟩ =
          { s.inbound.get ⟨i, h1⟩ with status := Status.pending, updated_at := now }) ∧
      ((s.inbound.get ⟨i, h1⟩).status ≠ Status.processing →
        (resetStuckMessages s now).inbound.get ⟨i, h2⟩ = s.inbound.get ⟨i, h1⟩)) ∧
    (∀ (i : Nat) (h1 : i < s.outbound.length)
       (h2 : i < (resetStuckMessages s now).outbound.length),
      ((s.outbound.get ⟨i, h1⟩).status = Status.processing →
        (resetStuckMessages s now).outbound.get ⟨i, h2⟩ =
          { s.outbound.get ⟨i, h1⟩ with status := Status.pending, updated_at := now }) ∧
      ((s.outbound.get ⟨i, h1⟩).status ≠ Status.processing →
        (resetStuckMessages s now).outbound.get ⟨i, h2⟩ = s.outbound.get ⟨i, h1⟩)) := by
  refine ⟨by simp [resetStuckMessages], by simp [resetStuckMessages], rfl, rfl, rfl, ?_, ?_⟩
  · intro i h1 h2
    simp only [List.get_eq_getElem]
    constructor <;> intro hs <;>
      simp only [resetStuckMessages, List.getElem_map] <;>
      simp [hs]
  · intro i h1 h2
    simp only [List.get_eq_getElem]
    constructor <;> intro hs <;>
      simp only [resetStuckMessages, List.getElem_map] <;>
      simp [hs]

theorem C7_reset_stuck_witness :
    (resetStuckMessages procStore 9).inbound.get ⟨0, by decide⟩ =
      { procInRow with status := Status.pending, updated_at := 9 } ∧
    (resetStuckMessages procStore 9).outbound.get ⟨0, by decide⟩ =
      { procOutRow with status := Status.pending, updated_at := 9 } := by
  have h := C7_reset_stuck procStore 9
  exact ⟨(h.2.2.2.2.2.1 0 (by decide) (by decide)).1 (by decide),
         (h.2.2.2.2.2.2 0 (by decide) (by decide)).1 (by decide)⟩

-- ── find? through the WHERE-id updates ──────────────────────────

theorem find?_updateOutboundRows (l : List OutboundRow) (id : Nat)
    (f : OutboundRow → OutboundRow) (hf : ∀ x, (f x).id = x.id) :
    (updateOutboundRows id f l).find? (byOutboundId id) =
      (l.find? (byOutboundId id)).map f := by
  induction l with
  | nil => rfl
  | cons a t ih =>
    by_cases h : a.id = id
    · rw [updateOutboundRows, List.map_cons, if_pos h,
        List.find?_cons_of_pos _ (by simp [byOutboundId, hf, h]),
        List.find?_cons_of_pos _ (by simp [byOutboundId, h])]
      rfl
    · rw [updateOutboundRows, List.map_cons, if_neg h,
        List.find?_cons_of_neg _ (by simp [byOutboundId, h]),
        List.find?_cons_of_neg _ (by simp [byOutboundId, h])]
      exact ih

theorem find?_updateInboundRows (l : List InboundRow) (id : Nat)
    (f : InboundRow → InboundRow) (hf : ∀ x, (f x).id = x.id) :
    (updateInboundRows id f l).find? (byInboundId id) =
      (l.find? (byInboundId id)).map f := by
  induction l with
  | nil => rfl
  | cons a t ih =>
    by_cases h : a.id = id
    · rw [updateInboundRows, List.map_cons, if_pos h,
        List.find?_cons_of_pos _ (by simp [byInboundId, hf, h]),
        List.find?_cons_of_pos _ (by simp [byInboundId, h])]
      rfl
    · rw [updateInboundRows, List.map_cons, if_neg h,
        List.find?_cons_of_neg _ (by simp [byInboundId, h]),
        List.find?_cons_of_neg _ (by simp [byInboundId, h])]
      exact ih

/-- The effect of one `markOutboundRetry` call on the targeted row. -/
theorem markOutboundRetry_find? (s : Store) (now : Int) (id : Nat) (err : String)
    (r : OutboundRow) (hr : s.outbound.find? (byOutboundId id) = some r) :
    (markOutboundRetry s now id err).outbound.find? (byOutboundId id) =
      some (if MAX_RETRIES ≤ r.retries + 1 then
              { r with status := Status.failed_permanent, updated_at := now,
                       retries := r.retries + 1, next_retry_at := none,
                       last_error := some err, completed_at := none,
                       lark_message_id := none }
            else
              { r with status := Status.pending, updated_at := now,
                       retries := r.retries + 1,
                       next_retry_at := some (now + calculateBackoff (r.retries + 1)),
                       last_error := some err, completed_at := none,
                       lark_message_id := none }) := by
  simp only [markOutboundRetry, hr]
  split
  case isTrue h =>
    rw [if_pos (show MAX_RETRIES ≤ r.retries + 1 by simpa [hasExceededMaxRetries] using h)]
    exact (find?_updateOutboundRows s.outbound id
      (fun x => { x with status := Status.failed_permanent, updated_at := now,
                         retries := r.retries + 1, next_retry_at := none,
                         last_error := some err, completed_at := none,
                         lark_message_id := none })
      (fun x => rfl)).trans (by rw [hr]; rfl)
  case isFalse h =>
    rw [if_neg (show ¬ MAX_RETRIES ≤ r.retries + 1 by simpa [hasExceededMaxRetries] using h)]
    exact (find?_updateOutboundRows s.outbound id
      (fun x => { x with status := Status.pending, updated_at := now,
                         retries := r.retries + 1,
                         next_retry_at := some (now + calculateBackoff (r.retries + 1)),
                         last_error := some err, completed_at := none,
                         lark_message_id := none })
      (fun x => rfl)).trans (by rw [hr]; rfl)

theorem markInboundRetry_find? (s : Store) (now : Int) (id : Nat) (err : String)
    (r : InboundRow) (hr : s.inbound.find? (byInboundId id) = some r) :
    (markInboundRetry s now id err).inbound.find? (byInboundId id) =
      some (if MAX_RETRIES ≤ r.retries + 1 then
              { r with status := Status.failed_permanent, updated_at := now,
                       retries := r.retries + 1, next_retry_at := none,
                       last_error := some err, completed_at := none,
                       response_text := none }
            else
              { r with status := Status.pending, updated_at := now,
                       retries := r.retries + 1,
                       next_retry_at := some (now + calculateBackoff (r.retries + 1)),
                       last_error := some err, completed_at := none,
                       response_text := none }) := by
  simp only [markInboundRetry, hr]
  split
  case isTrue h =>
    rw [if_pos (show MAX_RETRIES ≤ r.retries + 1 by simpa [hasExceededMaxRetries] using h)]
    exact (find?_updateInboundRows s.inbound id
      (fun x => { x with status := Status.failed_permanent, updated_at := now,
                         retries := r.retries + 1, next_retry_at := none,
                         last_error := some err, completed_at := none,
                         response_text := none })
      (fun x => rfl)).trans (by rw [hr]; rfl)
  case isFalse h =>
    rw [if_neg (show ¬ MAX_RETRIES ≤ r.retries + 1 by simpa [hasExceededMaxRetries] using h)]
    exact (find?_updateInboundRows s.inbound id
      (fun x => { x with status := Status.pending, updated_at := now,
                         retries := r.retries + 1,
                         next_retry_at := some (now + calculateBackoff (r.retries + 1)),
                         last_error := some err, completed_at := none,
                         response_text := none })
      (fun x => rfl)).trans (by rw [hr]; rfl)

/-- Across any sequence of `markOutboundRetry` calls the targeted row
stays present and its `retries` counter increments once per call. -/
theorem applyOutboundRetries_retries (id : Nat) :
    ∀ (calls : List (Int × String)) (s : Store) (r : OutboundRow),
      s.outbound.find? (byOutboundId id) = some r →
      ∃ r2, (applyOutboundRetries s calls id).outbound.find? (byOutboundId id) = some r2 ∧
        r2.retries = r.retries + calls.length := by
  intro calls
  induction calls with
  | nil =>
    intro s r hr
    exact ⟨r, by simpa [applyOutboundRetries] using hr, by simp⟩
  | cons c cs ih =>
    intro s r hr
    have hstep := markOutboundRetry_find? s c.1 id c.2 r hr
    obtain ⟨r1, h1, h1r⟩ :
        ∃ r1, (markOutboundRetry s c.1 id c.2).outbound.find? (byOutboundId id) = some r1 ∧
          r1.retries = r.retries + 1 := by
      refine ⟨_, hstep, ?_⟩
      split <;> rfl
    obtain ⟨r2, h2, h2r⟩ := ih (markOutboundRetry s c.1 id c.2) r1 h1
    refine ⟨r2, ?_, ?_⟩
    · simpa [applyOutboundRetries, List.foldl_cons] using h2
    · rw [h2r, h1r, List.length_cons]
      omega

theorem applyInboundRetries_retries (id : Nat) :
    ∀ (calls : List (Int × String)) (s : Store) (r : InboundRow),
      s.inbound.find? (byInboundId id) = some r →
      ∃ r2, (applyInboundRetries s calls id).inbound.find? (byInboundId id) = some r2 ∧
        r2.retries = r.retries + calls.length := by
  intro calls
  induction calls with
  | nil =>
    intro s r hr
    exact ⟨r, by simpa [applyInboundRetries] using hr, by simp⟩
  | cons c cs ih =>
    intro s r hr
    have hstep := markInboundRetry_find? s c.1 id c.2 r hr
    obtain ⟨r1, h1, h1r⟩ :
        ∃ r1, (markInboundRetry s c.1 id c.2).inbound.find? (byInboundId id) = some r1 ∧
          r1.retries = r.retries + 1 := by
      refine ⟨_, hstep, ?_⟩
      split <;> rfl
    obtain ⟨r2, h2, h2r⟩ := ih (markInboundRetry s c.1 id c.2) r1 h1
    refine ⟨r2, ?_, ?_⟩
    · simpa [applyInboundRetries, List.foldl_cons] using h2
    · rw [h2r, h1r, List.length_cons]
      omega

/-- Claim C3: starting from `retries = 0`, any 118 `markRetry` calls
followed by a 119th leave the row `pending` with `retries = 119` and
`next_retry_at` strictly in the future (`now + backoff`); the 120th
call flips it to `failed_permanent` with `retries = 120`, and the row is
still present (never deleted).  Proven for `markOutboundRetry` and
`markInboundRetry` alike, for arbitrary call times and error texts. -/
theorem C3_retry_exhaustion :
    (∀ (s : Store) (id : Nat) (r : OutboundRow) (calls : List (Int × String))
       (t1 t2 : Int) (e1 e2 : String),
      s.outbound.find? (byOutboundId id) = some r → r.retries = 0 → calls.length = 118 →
      ∃ r119 r120,
        (markOutboundRetry (applyOutboundRetries s calls id) t1 id e1).outbound.find?
            (byOutboundId id) = some r119 ∧
        r119.status = Status.pending ∧ r119.retries = 119 ∧
        r119.next_retry_at = some (t1 + calculateBackoff 119) ∧
        t1 < t1 + calculateBackoff 119 ∧
        (markOutboundRetry (markOutboundRetry (applyOutboundRetries s calls id) t1 id e1)
            t2 id e2).outbound.find? (byOutboundId id) = some r120 ∧
        r120.status = Status.failed_permanent ∧ r120.retries = 120) ∧
    (∀ (s : Store) (id : Nat) (r : InboundRow) (calls : List (Int × String))
       (t1 t2 : Int) (e1 e2 : String),
      s.inbound.find? (byInboundId id) = some r → r.retries = 0 → calls.length = 118 →
      ∃ r119 r120,
        (markInboundRetry (applyInboundRetries s calls id) t1 id e1).inbound.find?
            (byInboundId id) = some r119 ∧
        r119.status = Status.pending ∧ r119.retries = 119 ∧
        r119.next_retry_at = some (t1 + calculateBackoff 119) ∧
        t1 < t1 + calculateBackoff 119 ∧
        (markInboundRetry (markInboundRetry (applyInboundRetries s calls id) t1 id e1)
            t2 id e2).inbound.find? (byInboundId id) = some r120 ∧
        r120.status = Status.failed_permanent ∧ r120.retries = 120) := by
  have hpos : (0 : Int) < calculateBackoff 119 := by decide
  constructor
  · intro s id r calls t1 t2 e1 e2 hr hr0 hlen
    obtain ⟨r118, h118, h118r⟩ := applyOutboundRetries_retries id calls s r hr
    have h118retr : r118.retries = 118 := by rw [h118r, hr0, hlen]
    have h119 := markOutboundRetry_find? (applyOutboundRetries s calls id) t1 id e1 r118 h118
    rw [if_neg (by rw [h118retr]; decide)] at h119
    set rr : OutboundRow :=
      { r118 with status := Status.pending, updated_at := t1, retries := r118.retries + 1,
                  next_retry_at := some (t1 + calculateBackoff (r118.retries + 1)),
                  last_error := some e1, completed_at := none,
                  lark_message_id := none } with hrr
    have hrrretr : rr.retries = 119 := by rw [hrr]; show r118.retries + 1 = 119; omega
    have h120 := markOutboundRetry_find?
      (markOutboundRetry (applyOutboundRetries s calls id) t1 id e1) t2 id e2 rr h119
    rw [if_pos (by rw [hrrretr]; decide)] at h120
    refine ⟨rr, _, h119, by rw [hrr], hrrretr, ?_, ?_, h120, by rfl, ?_⟩
    · rw [hrr]
      show some (t1 + calculateBackoff (r118.retries + 1)) = _
      rw [show r118.retries + 1 = 119 by omega]
    · omega
    · show rr.retries + 1 = 120
      omega
  · intro s id r calls t1 t2 e1 e2 hr hr0 hlen
    obtain ⟨r118, h118, h118r⟩ := applyInboundRetries_retries id calls s r hr
    have h118retr : r118.retries = 118 := by rw [h118r, hr0, hlen]
    have h119 := markInboundRetry_find? (applyInboundRetries s calls id) t1 id e1 r118 h118
    rw [if_neg (by rw [h118retr]; decide)] at h119
    set rr : InboundRow :=
      { r118 with status := Status.pending, updated_at := t1, retries := r118.retries + 1,
                  next_retry_at := some (t1 + calculateBackoff (r118.retries + 1)),
                  last_error := some e1, completed_at := none,
                  response_text := none } with hrr
    have hrrretr : rr.retries = 119 := by rw [hrr]; show r118.retries + 1 = 119; omega
    have h120 := markInboundRetry_find?
      (markInboundRetry (applyInboundRetries s calls id) t1 id e1) t2 id e2 rr h119
    rw [if_pos (by rw [hrrretr]; decide)] at h120
    refine ⟨rr, _, h119, by rw [hrr], hrrretr, ?_, ?_, h120, by rfl, ?_⟩
    · rw [hrr]
      show some (t1 + calculateBackoff (r118.retries + 1)) = _
      rw [show r118.retries + 1 = 119 by omega]
    · omega
    · show rr.retries + 1 = 120
      omega

theorem C3_retry_exhaustion_witness :
    (∃ r119 r120,
      (markOutboundRetry
          (applyOutboundRetries fixtureStore (List.replicate 118 ((0 : Int), "e")) 1)
          1 1 "ea").outbound.find? (byOutboundId 1) = some r119 ∧
      r119.status = Status.pending ∧ r119.retries = 119 ∧
      r119.next_retry_at = some (1 + calculateBackoff 119) ∧
      (1 : Int) < 1 + calculateBackoff 119 ∧
      (markOutboundRetry
          (markOutboundRetry
            (applyOutboundRetries fixtureStore (List.replicate 118 ((0 : Int), "e")) 1)
            1 1 "ea")
          2 1 "eb").outbound.find? (byOutboundId 1) = some r120 ∧
      r120.status = Status.failed_permanent ∧ r120.retries = 120) ∧
    (∃ r119 r120,
      (markInboundRetry
          (applyInboundRetries fixtureStore (List.replicate 118 ((0 : Int), "e")) 1)
          1 1 "ea").inbound.find? (byInboundId 1) = some r119 ∧
      r119.status = Status.pending ∧ r119.retries = 119 ∧
      r119.next_retry_at = some (1 + calculateBackoff 119) ∧
      (1 : Int) < 1 + calculateBackoff 119 ∧
      (markInboundRetry
          (markInboundRetry
            (applyInboundRetries fixtureStore (List.replicate 118 ((0 : Int), "e")) 1)
            1 1 "ea")
          2 1 "eb").inbound.find? (byInboundId 1) = some r120 ∧
      r120.status = Status.failed_permanent ∧ r120.retries = 120) :=
  ⟨C3_retry_exhaustion.1 fixtureStore 1 outRow0 (List.replicate 118 ((0 : Int), "e"))
      1 2 "ea" "eb" (by decide) (by decide) (by simp),
   C3_retry_exhaustion.2 fixtureStore 1 inRow0 (List.replicate 118 ((0 : Int), "e"))
      1 2 "ea" "eb" (by decide) (by decide) (by simp)⟩

/-- Claim C6: `dequeueOutbound` / `dequeueInbound` leave the store
unchanged and return exactly the due pending rows — every returned row
is a `pending` store row with `next_retry_at` null or at most `now`, the
result is ordered by `created_at` ascending, has at most `limit` rows
(exactly `min limit (number of due rows)`), and when the due rows fit in
`limit`, every due row is returned. -/
theorem C6_dequeue_select (s : Store) (now : Int) (limit : Nat) :
    (dequeueOutbound s now limit).2 = s ∧
    (dequeueInbound s now limit).2 = s ∧
    (dequeueOutbound s now limit).1.length =
      min limit (s.outbound.filter (outboundDue now)).length ∧
    (dequeueInbound s now limit).1.length =
      min limit (s.inbound.filter (inboundDue now)).length ∧
    (∀ r ∈ (dequeueOutbound s now limit).1, r ∈ s.outbound ∧ outboundDue now r = true) ∧
    (∀ r ∈ (dequeueInbound s now limit).1, r ∈ s.inbound ∧ inboundDue now r = true) ∧
    (dequeueOutbound s now limit).1.Pairwise outboundLe ∧
    (dequeueInbound s now limit).1.Pairwise inboundLe ∧
    ((s.outbound.filter (outboundDue now)).length ≤ limit →
      ∀ r ∈ s.outbound, outboundDue now r = true → r ∈ (dequeueOutbound s now limit).1) ∧
    ((s.inbound.filter (inboundDue now)).length ≤ limit →
      ∀ r ∈ s.inbound, inboundDue now r = true → r ∈ (dequeueInbound s now limit).1) := by
  refine ⟨rfl, rfl, ?_, ?_, ?_, ?_, ?_, ?_, ?_, ?_⟩
  · show ((List.insertionSort outboundLe (s.outbound.filter (outboundDue now))).take
        limit).length = _
    rw [List.length_take, (List.perm_insertionSort outboundLe _).length_eq]
  · show ((List.insertionSort inboundLe (s.inbound.filter (inboundDue now))).take
        limit).length = _
    rw [List.length_take, (List.perm_insertionSort inboundLe _).length_eq]
  · intro r hr
    have h1 : r ∈ List.insertionSort outboundLe (s.outbound.filter (outboundDue now)) :=
      List.take_subset _ _ hr
    have h2 : r ∈ s.outbound.filter (outboundDue now) :=
      (List.perm_insertionSort outboundLe _).mem_iff.mp h1
    exact List.mem_filter.mp h2
  · intro r hr
    have h1 : r ∈ List.insertionSort inboundLe (s.inbound.filter (inboundDue now)) :=
      List.take_subset _ _ hr
    have h2 : r ∈ s.inbound.filter (inboundDue now) :=
      (List.perm_insertionSort inboundLe _).mem_iff.mp h1
    exact List.mem_filter.mp h2
  · exact (List.sorted_insertionSort outboundLe _).sublist (List.take_sublist _ _)
  · exact (List.sorted_insertionSort inboundLe _).sublist (List.take_sublist _ _)
  · intro hlen r hrm hrd
    have hmem : r ∈ List.insertionSort outboundLe (s.outbound.filter (outboundDue now)) :=
      (List.perm_insertionSort outboundLe _).mem_iff.mpr (List.mem_filter.mpr ⟨hrm, hrd⟩)
    have hall : (List.insertionSort outboundLe (s.outbound.filter (outboundDue now))).take
        limit = List.insertionSort outboundLe (s.outbound.filter (outboundDue now)) :=
      List.take_of_length_le (by rw [(List.perm_insertionSort outboundLe _).length_eq]
                                 exact hlen)
    show r ∈ (List.insertionSort outboundLe (s.outbound.filter (outboundDue now))).take limit
    rw [hall]
    exact hmem
  · intro hlen r hrm hrd
    have hmem : r ∈ List.insertionSort inboundLe (s.inbound.filter (inboundDue now)) :=
      (List.perm_insertionSort inboundLe _).mem_iff.mpr (List.mem_filter.mpr ⟨hrm, hrd⟩)
    have hall : (List.insertionSort inboundLe (s.inbound.filter (inboundDue now))).take
        limit = List.insertionSort inboundLe (s.inbound.filter (inboundDue now)) :=
      List.take_of_length_le (by rw [(List.perm_insertionSort inboundLe _).length_eq]
                                 exact hlen)
    show r ∈ (List.insertionSort inboundLe (s.inbound.filter (inboundDue now))).take limit
    rw [hall]
    exact hmem

theorem C6_dequeue_select_witness :
    (dequeueOutbound fixtureStore 5 3).2 = fixtureStore ∧
    outRow0 ∈ (dequeueOutbound fixtureStore 5 3).1 ∧
    inRow0 ∈ (dequeueInbound fixtureStore 5 3).1 := by
  have h := C6_dequeue_select fixtureStore 5 3
  exact ⟨h.1,
    h.2.2.2.2.2.2.2.2.1 (by decide) outRow0 (by decide) (by decide),
    h.2.2.2.2.2.2.2.2.2 (by decide) inRow0 (by decide) (by decide)⟩

/-- Claim C8 counterexample: the `mark*` statements update by id with no
status guard, so a queue operation invoked with a terminal row's id does
modify it — `markInboundProcessing` flips a `completed` row back to
`processing`, and `markOutboundRetry` flips a `failed_permanent` row
back to `pending`; the claim that every queue operation leaves
completed/failed_permanent rows unchanged is therefore false as
stated. -/
theorem C8_terminal_not_immutable_counterexample :
    termInRow.status = Status.completed ∧
    (markInboundProcessing termStore 50 1).inbound =
      [{ termInRow with status := Status.processing, updated_at := 50 }] ∧
    ({ termInRow with status := Status.processing, updated_at := 50 } : InboundRow) ≠
      termInRow ∧
    termOutRow.status = Status.failed_permanent ∧
    (markOutboundRetry termStore 50 1 "x").outbound =
      [{ termOutRow with status := Status.pending, updated_at := 50, retries := 1,
                         next_retry_at := some 2050, last_error := some "x",
                         completed_at := none, lark_message_id := none }] ∧
    ({ termOutRow with status := Status.pending, updated_at := 50, retries := 1,
                       next_retry_at := some 2050, last_error := some "x",
                       completed_at := none, lark_message_id := none } : OutboundRow) ≠
      termOutRow := by
  refine ⟨by decide, by decide, by decide, by decide, by decide, by decide⟩

/-- Claim C8 (amended): completed and failed_permanent rows are
untouched by every queue operation that does not target their id — the
`mark*` updates only affect the row with the given id, enqueues only
append, dequeues do not mutate the store, and the stuck-row sweeps only
touch `processing` rows; no operation but TTL `cleanup` deletes rows,
and `cleanup` deletes exactly the `completed` rows older than the TTL
cutoff, never a `failed_permanent` row.  (The unamended claim fails
because a `mark*` call aimed directly at a terminal row's id does modify
it — the statements carry no status guard.) -/
theorem C8_terminal_rows_amended :
    (∀ (s : Store) (now : Int) (id : Nat) (resp err : String)
       (r : InboundRow), r ∈ s.inbound → r.id ≠ id →
      r ∈ (markInboundProcessing s now id).inbound ∧
      r ∈ (markInboundCompleted s now id resp).inbound ∧
      r ∈ (markInboundRetry s now id err).inbound) ∧
    (∀ (s : Store) (now : Int) (id : Nat) (err : String) (mid : Option String)
       (r : OutboundRow), r ∈ s.outbound → r.id ≠ id →
      r ∈ (markOutboundProcessing s now id).outbound ∧
      r ∈ (markOutboundCompleted s now id mid).outbound ∧
      r ∈ (markOutboundRetry s now id err).outbound) ∧
    (∀ (s : Store) (now : Int) (m c k t : String) (a : Option String) (r : InboundRow),
      r ∈ s.inbound → r ∈ (enqueueInbound s now m c k t a).2.inbound) ∧
    (∀ (hash : String → String) (s : Store) (now : Int) (qt : String) (rid : Option String)
       (sk c content : String) (r : OutboundRow),
      r ∈ s.outbound → r ∈ (enqueueOutbound hash s now qt rid sk c content).2.outbound) ∧
    (∀ (s : Store) (now : Int) (limit : Nat),
      (dequeueInbound s now limit).2 = s ∧ (dequeueOutbound s now limit).2 = s) ∧
    (∀ (s : Store) (now : Int) (r : InboundRow), r ∈ s.inbound →
      (r.status = Status.completed ∨ r.status = Status.failed_permanent) →
      r ∈ (resetStuckMessages s now).inbound ∧ r ∈ (recoverStuck s now).inbound ∧
      (r.status = Status.failed_permanent → r ∈ (cleanup s now).inbound) ∧
      (r.status = Status.completed →
        (r ∈ (cleanup s now).inbound ↔ ¬ r.created_at < now - MESSAGE_TTL_MS))) ∧
    (∀ (s : Store) (now : Int) (r : OutboundRow), r ∈ s.outbound →
      (r.status = Status.completed ∨ r.status = Status.failed_permanent) →
      r ∈ (resetStuckMessages s now).outbound ∧ r ∈ (recoverStuck s now).outbound ∧
      (r.status = Status.failed_permanent → r ∈ (cleanup s now).outbound) ∧
      (r.status = Status.completed →
        (r ∈ (cleanup s now).outbound ↔ ¬ r.created_at < now - MESSAGE_TTL_MS))) ∧
    (∀ (s : Store) (now : Int),
      (cleanup s now).inbound ⊆ s.inbound ∧ (cleanup s now).outbound ⊆ s.outbound) := by
  refine ⟨?_, ?_, ?_, ?_, fun s now limit => ⟨rfl, rfl⟩, ?_, ?_, ?_⟩
  · intro s now id resp err r hr hne
    refine ⟨?_, ?_, ?_⟩
    · exact List.mem_map.mpr ⟨r, hr, by simp [hne]⟩
    · exact List.mem_map.mpr ⟨r, hr, by simp [hne]⟩
    · simp only [markInboundRetry]
      split <;> exact List.mem_map.mpr ⟨r, hr, by simp [hne]⟩
  · intro s now id err mid r hr hne
    refine ⟨?_, ?_, ?_⟩
    · exact List.mem_map.mpr ⟨r, hr, by simp [hne]⟩
    · unfold markOutboundCompleted
      cases hm : s.outbound.find? (byOutboundId id) <;>
        exact List.mem_map.mpr ⟨r, hr, by simp [hne]⟩
    · simp only [markOutboundRetry]
      split <;> exact List.mem_map.mpr ⟨r, hr, by simp [hne]⟩
  · intro s now m c k t a r hr
    unfold enqueueInbound
    cases hm : s.inbound.find? (byMessageId m)
    · exact List.mem_append_left _ hr
    · exact hr
  · intro hash s now qt rid sk c content r hr
    simp only [enqueueOutbound]
    split
    · exact hr
    · split
      · exact hr
      · exact List.mem_append_left _ hr
  · intro s now r hr hst
    refine ⟨?_, ?_, ?_, ?_⟩
    · refine List.mem_map.mpr ⟨r, hr, ?_⟩
      rcases hst with h | h <;> simp [h]
    · refine List.mem_map.mpr ⟨r, hr, ?_⟩
      rcases hst with h | h <;> simp [h]
    · intro h
      exact List.mem_filter.mpr ⟨hr, by simp [h]⟩
    · intro h
      simp only [cleanup]
      rw [List.mem_filter]
      simp [hr, h]
  · intro s now r hr hst
    refine ⟨?_, ?_, ?_, ?_⟩
    · refine List.mem_map.mpr ⟨r, hr, ?_⟩
      rcases hst with h | h <;> simp [h]
    · refine List.mem_map.mpr ⟨r, hr, ?_⟩
      rcases hst with h | h <;> simp [h]
    · intro h
      exact List.mem_filter.mpr ⟨hr, by simp [h]⟩
    · intro h
      simp only [cleanup]
      rw [List.mem_filter]
      simp [hr, h]
  · intro s now
    exact ⟨fun x hx => (List.mem_filter.mp hx).1, fun x hx => (List.mem_filter.mp hx).1⟩

theorem C8_terminal_rows_amended_witness :
    termInRow ∈ (markInboundProcessing termStore 50 99).inbound ∧
    termOutRow ∈ (markOutboundCompleted termStore 50 99 (some "mid")).outbound ∧
    termInRow ∈ (resetStuckMessages termStore 50).inbound ∧
    termOutRow ∈ (cleanup termStore 99).outbound := by
  have h := C8_terminal_rows_amended
  exact ⟨(h.1 termStore 50 99 "r" "e" termInRow (by decide) (by decide)).1,
    (h.2.1 termStore 50 99 "e" (some "mid") termOutRow (by decide) (by decide)).2.1,
    (h.2.2.2.2.2.1 termStore 50 termInRow (by decide) (Or.inl (by decide))).1,
    (h.2.2.2.2.2.2.1 termStore 99 termOutRow (by decide) (Or.inr (by decide))).2.2.1
      (by decide)⟩

theorem C5_inbound_idempotent_witness :
    (enqueueInbound emptyStore 10 "mx" "c" "s" "hello" none).1 =
      { enqueued := true, id := some 1 } ∧
    ((enqueueInbound emptyStore 10 "mx" "c" "s" "hello" none).2.inbound.countP
        (byMessageId "mx") = 1 ∧
      (enqueueInbound (enqueueInbound emptyStore 10 "mx" "c" "s" "hello" none).2
          11 "mx" "c2" "s2" "bye" none).1 =
        { enqueued := false, reason := some "duplicate", existing := some Status.pending } ∧
      (enqueueInbound (enqueueInbound emptyStore 10 "mx" "c" "s" "hello" none).2
          11 "mx" "c2" "s2" "bye" none).2 =
        (enqueueInbound emptyStore 10 "mx" "c" "s" "hello" none).2) :=
  C5_inbound_idempotent emptyStore 10 11 "mx" "c" "s" "hello" none "c2" "s2" "bye" none
    (by decide)

end LarkChannel
